import Mathlib

set_option linter.unusedSectionVars false

/-!
Verification of the kinematics and system-command core of the MaslowDue CNC
controller (`src/MaslowDue/system.cpp`, compiled with `MASLOWCNC` defined).

Modelling conventions:
* C `float`/`double` arithmetic is idealised as exact arithmetic. Kinematics
  functions that use `sqrt`, `asin`, `sin`, `cos`, `sinh` are embedded over `ℝ`;
  purely rational code (the forward-solver loop, the step conversions, the
  travel-limit check, the dispatcher) is embedded over an arbitrary linear
  ordered field so that it can also be executed over `ℚ`.
* C casts `(int32_t) x` of a floating value truncate toward zero; `ctrunc`
  models this (overflow ignored).
* External collaborators that are declared in headers not present in the
  repository snapshot (the G-code parser, EEPROM settings reader, `read_float`,
  homing, reporting) are parameters of an `Env` record; calls to them are
  recorded as `Event`s, so "prints nothing / no side effect" is statable.
-/

namespace MaslowDue

/-- Modelled from the spec: axis indices of the standard Grbl axis layout
(`nuts_bolts.h` is not in the repository snapshot). -/
def X_AXIS : Fin 3 := 0

/-- Modelled from the spec: Y axis index. -/
def Y_AXIS : Fin 3 := 1

/-- Modelled from the spec: Z axis index. -/
def Z_AXIS : Fin 3 := 2

/-- Modelled from the spec: `LEFT_MOTOR` (from `MaslowDue.h`, not in the
snapshot) addresses the same array slot as the X axis; the spec's
coordinate-frame bridge converts the X result "into mm by the same per-axis
scaling". -/
def LEFT_MOTOR : Fin 3 := 0

/-- Modelled from the spec: `RIGHT_MOTOR` addresses the same array slot as the
Y axis. -/
def RIGHT_MOTOR : Fin 3 := 1

/-- Modelled from the spec: status codes returned by the dispatcher
(`report.h` is not in the snapshot); represented as a sum type, with `other`
standing for any further collaborator status. `ok` is the zero status. -/
inductive Status : Type where
  | ok
  | expectedCommandLetter
  | badNumberFormat
  | invalidStatement
  | negativeValue
  | settingDisabled
  | settingStepPulseMin
  | settingReadFail
  | idleError
  | systemGcLock
  | softLimitError
  | statusOverflow
  | maxStepRateExceeded
  | checkDoor
  | lineLengthExceeded
  | other (n : ℕ)
  deriving DecidableEq, Repr

/-- Modelled from the spec: the machine-state sum type (`system.h` is not in
the snapshot): exactly one active variant. -/
inductive MachineState : Type where
  | idle
  | alarm
  | checkMode
  | homing
  | cycle
  | hold
  | jog
  | safetyDoor
  | sleep
  deriving DecidableEq, Repr

/-- Modelled from the spec: the numeric encoding of `sys.state` used by the
bit tests in the source (`STATE_IDLE` is `0`, the others are one-hot bits). -/
def MachineState.value : MachineState → ℕ
  | .idle => 0
  | .alarm => 1
  | .checkMode => 2
  | .homing => 4
  | .cycle => 8
  | .hold => 16
  | .jog => 32
  | .safetyDoor => 64
  | .sleep => 128

/-- `STATE_CYCLE` bit. -/
def STATE_CYCLE : ℕ := 8

/-- `STATE_HOLD` bit. -/
def STATE_HOLD : ℕ := 16

/-- Machine settings record (the fields of `settings.h`'s settings struct that
`system.cpp` reads), over a field `α`. `simpleKinematics` is the nonzero test
of the corresponding settings byte. -/
structure Settings (α : Type) where
  steps_per_mm : Fin 3 → α
  max_travel : Fin 3 → α
  zTravelMin : α
  chainLength : α
  distBetweenMotors : α
  machineHeight : α
  motorOffsetY : α
  chainOverSprocket : α
  leftChainTolerance : α
  rightChainTolerance : α
  chainElongationFactor : α
  sledWeight : α
  rotationDiskRadius : α
  XcorrScaling : α
  YcorrScaling : α
  simpleKinematics : Bool

variable {α : Type} [LinearOrderedField α]

/-- C cast of a floating value to a signed integer: truncation toward zero. -/
def ctrunc [FloorRing α] (x : α) : ℤ :=
  if 0 ≤ x then ⌊x⌋ else ⌈x⌉

/-- Per-axis body of the `for` loop of `system_check_travel_limits`
(`MASLOWCNC` branch): `true` means this axis exceeds its travel. -/
def axisExceeded (s : Settings α) (target : Fin 3 → α) (idx : Fin 3) : Bool :=
  if idx = Z_AXIS then
    -- Maslow has a min Z setting in addition to the max Z.
    decide (target idx > s.zTravelMin ∨ target idx < s.max_travel idx)
  else
    -- Maslow homes at the center of the stock.
    let ht := s.max_travel idx / (-2)
    decide (target idx < -ht ∨ target idx > ht)

/-- `system_check_travel_limits`: the `for` loop over the three axes with its
early `return(true)` is the disjunction of the per-axis tests. -/
def system_check_travel_limits (s : Settings α) (target : Fin 3 → α) : Bool :=
  [(0 : Fin 3), 1, 2].any (axisExceeded s target)

/-- `KINEMATICS_MAX_GUESS` (system.cpp line 26). -/
def KINEMATICS_MAX_GUESS : ℕ := 200

/-- `KINEMATICS_MAX_ERR = 0.01` (system.cpp line 28). -/
def KINEMATICS_MAX_ERR : α := 1 / 100

/-- Result of the forward solver: the values written through `*xPos` / `*yPos`,
together with whether the divergence message was printed. -/
structure FwdResult (α : Type) where
  diverged : Bool
  x : α
  y : α
  deriving DecidableEq, Repr

/-- The `while(1)` loop of `triangularForward`, parameterised by the inverse
kinematics `inv` (the source calls `triangularInverse`) and by
`settings.chainLength`. `fuel` is an upper bound on the remaining iterations;
`triangularForward_terminates` shows that `KINEMATICS_MAX_GUESS + 1` fuel never
runs out, so the `Option` is an artefact of the embedding only. -/
def triangularForwardLoop (inv : α → α → α × α) (chainLen chainALength chainBLength : α)
    (xGuess yGuess : α) (guessCount : ℕ) (fuel : ℕ) : Option (FwdResult α) :=
  match fuel with
  | 0 => none
  | fuel + 1 =>
    -- check our guess
    let g := inv xGuess yGuess
    let aChainError := chainALength - g.1
    let bChainError := chainBLength - g.2
    -- adjust the guess based on the result
    let xGuess' := xGuess + aChainError - bChainError
    let yGuess' := yGuess - aChainError - bChainError
    let guessCount' := guessCount + 1
    -- if we've converged on the point...or it's time to give up, exit the loop
    if (|aChainError| ≤ KINEMATICS_MAX_ERR ∧ |bChainError| ≤ KINEMATICS_MAX_ERR) ∨
        guessCount' > KINEMATICS_MAX_GUESS ∨ g.1 > chainLen ∨ g.2 > chainLen then
      if guessCount' > KINEMATICS_MAX_GUESS ∨ g.1 > chainLen ∨ g.2 > chainLen then
        -- "Unable to find valid machine position for chain lengths ..."
        some ⟨true, 0, 0⟩
      else
        some ⟨false, xGuess', yGuess'⟩
    else
      triangularForwardLoop inv chainLen chainALength chainBLength xGuess' yGuess'
        guessCount' fuel

/-- Result record of `system_convert_maslow_to_xy_steps`: the two step counts
written through `*x_steps` / `*y_steps`, and the new contents of the seed
cache `_xLastPosition` / `_yLastPosition`. -/
structure MaslowSteps (α : Type) where
  x_steps : ℤ
  y_steps : ℤ
  xLast : α
  yLast : α
  deriving DecidableEq, Repr

/-- `chainToPosition`, parameterised by the two kinematics routines it selects
between (`triangularSimple` and `triangularInverse`-driven forward solving in
the source). `_recomputeGeometry` is a pure function of the settings and is
inlined into the `ℝ`-level kinematics definitions. -/
def chainToPositionP (simpleF : α → α → α × α) (inv : α → α → α × α)
    (simpleKinematics : Bool) (chainLen aChainLength bChainLength xSeed ySeed : α) :
    Option (FwdResult α) :=
  if simpleKinematics then
    some ⟨false, (simpleF aChainLength bChainLength).1, (simpleF aChainLength bChainLength).2⟩
  else
    triangularForwardLoop inv chainLen aChainLength bChainLength xSeed ySeed 0
      (KINEMATICS_MAX_GUESS + 1)

/-- `system_convert_maslow_to_xy_steps`, parameterised like `chainToPositionP`.
The seed cache `_xLastPosition` / `_yLastPosition` is both the initial guess
passed to `chainToPosition` and the location the result is written to;
`*x_steps = (int32_t) _xLastPosition * settings.steps_per_mm[X_AXIS]` casts
the cached float to `int32_t` first and then truncates the float product. -/
def system_convert_maslow_to_xy_stepsP [FloorRing α] (simpleF inv : α → α → α × α)
    (s : Settings α) (steps : Fin 3 → ℤ) (xLast yLast : α) : Option (MaslowSteps α) :=
  match chainToPositionP simpleF inv s.simpleKinematics s.chainLength
      ((steps LEFT_MOTOR : α) / s.steps_per_mm LEFT_MOTOR)
      ((steps RIGHT_MOTOR : α) / s.steps_per_mm RIGHT_MOTOR) xLast yLast with
  | none => none
  | some r =>
      some ⟨ctrunc ((ctrunc r.x : α) * s.steps_per_mm X_AXIS),
            ctrunc ((ctrunc r.y : α) * s.steps_per_mm Y_AXIS), r.x, r.y⟩

/-- `system_convert_array_steps_to_mpos` (`MASLOWCNC` branch), parameterised
like `chainToPositionP`; returns the position array and the new seed cache. -/
def system_convert_array_steps_to_mposP [FloorRing α] (simpleF inv : α → α → α × α)
    (s : Settings α) (steps : Fin 3 → ℤ) (xLast yLast : α) :
    Option ((Fin 3 → α) × α × α) :=
  match system_convert_maslow_to_xy_stepsP simpleF inv s steps xLast yLast with
  | none => none
  | some r =>
      some (fun idx =>
        if idx = X_AXIS then (r.x_steps : α) / s.steps_per_mm LEFT_MOTOR
        else if idx = Y_AXIS then (r.y_steps : α) / s.steps_per_mm RIGHT_MOTOR
        else (steps Z_AXIS : α) / s.steps_per_mm Z_AXIS,
        r.xLast, r.yLast)

section RealKinematics

open Real

/-- `_sprocketRadius` (system.cpp line 37). -/
noncomputable def sprocketRadius : ℝ := 10.1

/-- `_xCordOfMotor`, as recomputed by `_recomputeGeometry`. -/
noncomputable def xCordOfMotor (s : Settings ℝ) : ℝ := s.distBetweenMotors / 2

/-- `_yCordOfMotor`, as recomputed by `_recomputeGeometry`. -/
noncomputable def yCordOfMotor (s : Settings ℝ) : ℝ := s.machineHeight / 2 + s.motorOffsetY

/-- `Motor1Distance` in `triangularInverse`. -/
noncomputable def Motor1Distance (s : Settings ℝ) (xTarget yTarget : ℝ) : ℝ :=
  Real.sqrt ((-1 * xCordOfMotor s - xTarget) ^ 2 + (yCordOfMotor s - yTarget) ^ 2)

/-- `Motor2Distance` in `triangularInverse`. -/
noncomputable def Motor2Distance (s : Settings ℝ) (xTarget yTarget : ℝ) : ℝ :=
  Real.sqrt ((xCordOfMotor s - xTarget) ^ 2 + (yCordOfMotor s - yTarget) ^ 2)

/-- `Chain1Angle`: chain angle from horizontal at the left sprocket, by
chain routing. -/
noncomputable def Chain1Angle (s : Settings ℝ) (xTarget yTarget : ℝ) : ℝ :=
  let yDiff := yCordOfMotor s - yTarget
  if s.chainOverSprocket = 1 then
    arcsin (yDiff / Motor1Distance s xTarget yTarget) +
      arcsin (sprocketRadius / Motor1Distance s xTarget yTarget)
  else
    arcsin (yDiff / Motor1Distance s xTarget yTarget) -
      arcsin (sprocketRadius / Motor1Distance s xTarget yTarget)

/-- `Chain2Angle`: chain angle from horizontal at the right sprocket. -/
noncomputable def Chain2Angle (s : Settings ℝ) (xTarget yTarget : ℝ) : ℝ :=
  let yDiff := yCordOfMotor s - yTarget
  if s.chainOverSprocket = 1 then
    arcsin (yDiff / Motor2Distance s xTarget yTarget) +
      arcsin (sprocketRadius / Motor2Distance s xTarget yTarget)
  else
    arcsin (yDiff / Motor2Distance s xTarget yTarget) -
      arcsin (sprocketRadius / Motor2Distance s xTarget yTarget)

/-- `Chain1AroundSprocket`; the bottom-routing branch uses the literal
`3.14159` of the source, not `π`. -/
noncomputable def Chain1AroundSprocket (s : Settings ℝ) (xTarget yTarget : ℝ) : ℝ :=
  if s.chainOverSprocket = 1 then sprocketRadius * Chain1Angle s xTarget yTarget
  else sprocketRadius * (3.14159 - Chain1Angle s xTarget yTarget)

/-- `Chain2AroundSprocket`. -/
noncomputable def Chain2AroundSprocket (s : Settings ℝ) (xTarget yTarget : ℝ) : ℝ :=
  if s.chainOverSprocket = 1 then sprocketRadius * Chain2Angle s xTarget yTarget
  else sprocketRadius * (3.14159 - Chain2Angle s xTarget yTarget)

/-- `xTangent1`: x coordinate of the tangent point on the left sprocket. -/
noncomputable def xTangent1 (s : Settings ℝ) (xTarget yTarget : ℝ) : ℝ :=
  if s.chainOverSprocket = 1 then
    -1 * xCordOfMotor s + sprocketRadius * Real.sin (Chain1Angle s xTarget yTarget)
  else
    -1 * xCordOfMotor s - sprocketRadius * Real.sin (Chain1Angle s xTarget yTarget)

/-- `yTangent1`. -/
noncomputable def yTangent1 (s : Settings ℝ) (xTarget yTarget : ℝ) : ℝ :=
  if s.chainOverSprocket = 1 then
    yCordOfMotor s + sprocketRadius * Real.cos (Chain1Angle s xTarget yTarget)
  else
    yCordOfMotor s - sprocketRadius * Real.cos (Chain1Angle s xTarget yTarget)

/-- `xTangent2`. -/
noncomputable def xTangent2 (s : Settings ℝ) (xTarget yTarget : ℝ) : ℝ :=
  if s.chainOverSprocket = 1 then
    xCordOfMotor s - sprocketRadius * Real.sin (Chain2Angle s xTarget yTarget)
  else
    xCordOfMotor s + sprocketRadius * Real.sin (Chain2Angle s xTarget yTarget)

/-- `yTangent2`. -/
noncomputable def yTangent2 (s : Settings ℝ) (xTarget yTarget : ℝ) : ℝ :=
  if s.chainOverSprocket = 1 then
    yCordOfMotor s + sprocketRadius * Real.cos (Chain2Angle s xTarget yTarget)
  else
    yCordOfMotor s - sprocketRadius * Real.cos (Chain2Angle s xTarget yTarget)

/-- `chainDensity = 0.14 * 9.8 / 1000` Newtons / mm. -/
noncomputable def chainDensity : ℝ := 0.14 * 9.8 / 1000

/-- `Chain1Straight = sqrt(Motor1Distance² − sprocketRadius²)`. -/
noncomputable def Chain1Straight (s : Settings ℝ) (xTarget yTarget : ℝ) : ℝ :=
  Real.sqrt (Motor1Distance s xTarget yTarget ^ 2 - sprocketRadius ^ 2)

/-- `Chain2Straight`. -/
noncomputable def Chain2Straight (s : Settings ℝ) (xTarget yTarget : ℝ) : ℝ :=
  Real.sqrt (Motor2Distance s xTarget yTarget ^ 2 - sprocketRadius ^ 2)

/-- `totalWeight`: sled weight plus half the weight of the straight chain
runs. -/
noncomputable def totalWeight (s : Settings ℝ) (xTarget yTarget : ℝ) : ℝ :=
  s.sledWeight + 0.5 * chainDensity *
    (Chain1Straight s xTarget yTarget + Chain2Straight s xTarget yTarget)

/-- `tensionD`: denominator of the planar tension solve. -/
noncomputable def tensionD (s : Settings ℝ) (xTarget yTarget : ℝ) : ℝ :=
  xTangent1 s xTarget yTarget * yTangent2 s xTarget yTarget -
    xTangent2 s xTarget yTarget * yTangent1 s xTarget yTarget -
    xTangent1 s xTarget yTarget * yTarget + xTarget * yTangent1 s xTarget yTarget +
    xTangent2 s xTarget yTarget * yTarget - xTarget * yTangent2 s xTarget yTarget

/-- `tension1`. -/
noncomputable def tension1 (s : Settings ℝ) (xTarget yTarget : ℝ) : ℝ :=
  -(totalWeight s xTarget yTarget *
      Real.sqrt ((xTangent1 s xTarget yTarget - xTarget) ^ 2 +
        (yTangent1 s xTarget yTarget - yTarget) ^ 2) *
      (xTangent2 s xTarget yTarget - xTarget)) / tensionD s xTarget yTarget

/-- `tension2`. -/
noncomputable def tension2 (s : Settings ℝ) (xTarget yTarget : ℝ) : ℝ :=
  (totalWeight s xTarget yTarget *
      Real.sqrt ((xTangent2 s xTarget yTarget - xTarget) ^ 2 +
        (yTangent2 s xTarget yTarget - yTarget) ^ 2) *
      (xTangent1 s xTarget yTarget - xTarget)) / tensionD s xTarget yTarget

/-- `horizontalTension`. -/
noncomputable def horizontalTension (s : Settings ℝ) (xTarget yTarget : ℝ) : ℝ :=
  tension1 s xTarget yTarget * (xTarget - xTangent1 s xTarget yTarget) /
    Chain1Straight s xTarget yTarget

/-- `a1` (equal to the source's `a2`): catenary shape parameter. -/
noncomputable def catenaryA (s : Settings ℝ) (xTarget yTarget : ℝ) : ℝ :=
  horizontalTension s xTarget yTarget / chainDensity

/-- First computation of `chain1`: catenary arc length of the left chain. -/
noncomputable def catenary1 (s : Settings ℝ) (xTarget yTarget : ℝ) : ℝ :=
  Real.sqrt ((2 * catenaryA s xTarget yTarget *
      Real.sinh ((xTarget - xTangent1 s xTarget yTarget) /
        (2 * catenaryA s xTarget yTarget))) ^ 2 +
    (yTangent1 s xTarget yTarget - yTarget) ^ 2)

/-- First computation of `chain2`. -/
noncomputable def catenary2 (s : Settings ℝ) (xTarget yTarget : ℝ) : ℝ :=
  Real.sqrt ((2 * catenaryA s xTarget yTarget *
      Real.sinh ((xTangent2 s xTarget yTarget - xTarget) /
        (2 * catenaryA s xTarget yTarget))) ^ 2 +
    (yTangent2 s xTarget yTarget - yTarget) ^ 2)

/-- `triangularInverse` — calculate left and right chain lengths from X-Y
cartesian coordinates (the corrective-scaling multiplications are commented
out in the source). -/
noncomputable def triangularInverse (s : Settings ℝ) (xTarget yTarget : ℝ) : ℝ × ℝ :=
  (Chain1AroundSprocket s xTarget yTarget +
      catenary1 s xTarget yTarget / (1 + s.leftChainTolerance / 100) /
        (1 + tension1 s xTarget yTarget * s.chainElongationFactor) -
      s.rotationDiskRadius,
    Chain2AroundSprocket s xTarget yTarget +
      catenary2 s xTarget yTarget / (1 + s.rightChainTolerance / 100) /
        (1 + tension2 s xTarget yTarget * s.chainElongationFactor) -
      s.rotationDiskRadius)

/-- `triangularSimple`: closed-form intersecting-circle forward kinematics. -/
noncomputable def triangularSimple (s : Settings ℝ) (aChainLength bChainLength : ℝ) : ℝ × ℝ :=
  let x_pos := ((xCordOfMotor s * 2) ^ 2 - bChainLength ^ 2 + aChainLength ^ 2) /
    (2 * (xCordOfMotor s * 2))
  let y_pos := Real.sqrt (aChainLength ^ 2 - x_pos ^ 2)
  ((-1 * xCordOfMotor s + x_pos) / s.XcorrScaling,
    (yCordOfMotor s - y_pos) / s.YcorrScaling)

/-- `triangularForward`: the iterative forward solver, with
`KINEMATICS_MAX_GUESS + 1` fuel (shown sufficient below). -/
noncomputable def triangularForward (s : Settings ℝ)
    (chainALength chainBLength xSeed ySeed : ℝ) : Option (FwdResult ℝ) :=
  triangularForwardLoop (triangularInverse s) s.chainLength chainALength chainBLength
    xSeed ySeed 0 (KINEMATICS_MAX_GUESS + 1)

/-- `chainToPosition`: selects `triangularSimple` or `triangularForward`. -/
noncomputable def chainToPosition (s : Settings ℝ)
    (aChainLength bChainLength xSeed ySeed : ℝ) : Option (FwdResult ℝ) :=
  chainToPositionP (triangularSimple s) (triangularInverse s) s.simpleKinematics
    s.chainLength aChainLength bChainLength xSeed ySeed

/-- `system_convert_maslow_to_xy_steps` over `ℝ`. -/
noncomputable def system_convert_maslow_to_xy_steps (s : Settings ℝ) (steps : Fin 3 → ℤ)
    (xLast yLast : ℝ) : Option (MaslowSteps ℝ) :=
  system_convert_maslow_to_xy_stepsP (triangularSimple s) (triangularInverse s) s steps
    xLast yLast

/-- `system_convert_array_steps_to_mpos` over `ℝ`. -/
noncomputable def system_convert_array_steps_to_mpos (s : Settings ℝ) (steps : Fin 3 → ℤ)
    (xLast yLast : ℝ) : Option ((Fin 3 → ℝ) × ℝ × ℝ) :=
  system_convert_array_steps_to_mposP (triangularSimple s) (triangularInverse s) s steps
    xLast yLast

/-- The coordinate-frame bridge exactly as the claim words it: left/right
motor steps become chain millimetres via `steps_per_mm[LEFT_MOTOR]` /
`steps_per_mm[RIGHT_MOTOR]`; forward kinematics runs on them (seeded from,
and writing back to, the seed cache); the resulting `(x, y)` millimetres
become step counts scaled by `steps_per_mm[X_AXIS]` / `steps_per_mm[Y_AXIS]`;
those step counts become millimetres again divided by the same per-axis
scaling; the Z axis passes through linearly. -/
noncomputable def steps_to_mpos_claim (s : Settings ℝ) (steps : Fin 3 → ℤ)
    (xLast yLast : ℝ) : Option ((Fin 3 → ℝ) × ℝ × ℝ) :=
  match chainToPosition s ((steps LEFT_MOTOR : ℝ) / s.steps_per_mm LEFT_MOTOR)
      ((steps RIGHT_MOTOR : ℝ) / s.steps_per_mm RIGHT_MOTOR) xLast yLast with
  | none => none
  | some r =>
      let x_steps : ℤ := ctrunc ((ctrunc r.x : ℝ) * s.steps_per_mm X_AXIS)
      let y_steps : ℤ := ctrunc ((ctrunc r.y : ℝ) * s.steps_per_mm Y_AXIS)
      some (fun idx =>
        if idx = X_AXIS then (x_steps : ℝ) / s.steps_per_mm X_AXIS
        else if idx = Y_AXIS then (y_steps : ℝ) / s.steps_per_mm Y_AXIS
        else (steps Z_AXIS : ℝ) / s.steps_per_mm Z_AXIS,
        r.x, r.y)

end RealKinematics

/-! ## System command dispatcher -/

/-- The NUL terminator of a C string; `chAt` reads a line as a C string, any
index past the end of the list being the terminator. -/
def NUL : Char := Char.ofNat 0

/-- `line[i]` for a NUL-terminated line buffer. -/
def chAt (line : List Char) (i : ℕ) : Char := line.getD i NUL

/-- Modelled from the spec: feedback-message codes of the reporting
collaborator (`report.h` is not in the snapshot). -/
def MESSAGE_ALARM_UNLOCK : ℕ := 3

/-- Feedback code printed when check mode is enabled. -/
def MESSAGE_ENABLED : ℕ := 4

/-- Feedback code printed when check mode is disabled. -/
def MESSAGE_DISABLED : ℕ := 5

/-- Feedback code printed after restoring defaults. -/
def MESSAGE_RESTORE_DEFAULTS : ℕ := 9

/-- Modelled from the spec: the `Sleep` real-time exec-state flag bit. -/
def EXEC_SLEEP : ℕ := 128

/-- Modelled from the spec: homing-cycle masks (`config.h`/`limits.h` are not
in the snapshot; only distinctness matters here). -/
def HOMING_CYCLE_ALL : ℕ := 0

/-- Homing mask for the X axis only. -/
def HOMING_CYCLE_X : ℕ := 1

/-- Homing mask for the Y axis only. -/
def HOMING_CYCLE_Y : ℕ := 2

/-- Homing mask for the Z axis only. -/
def HOMING_CYCLE_Z : ℕ := 4

/-- `SETTINGS_RESTORE_DEFAULTS` mask. -/
def SETTINGS_RESTORE_DEFAULTS : ℕ := 1

/-- `SETTINGS_RESTORE_PARAMETERS` mask. -/
def SETTINGS_RESTORE_PARAMETERS : ℕ := 2

/-- `SETTINGS_RESTORE_ALL` mask. -/
def SETTINGS_RESTORE_ALL : ℕ := 255

/-- `system_check_safety_door_ajar` (`MASLOWCNC` branch): `return 0; // no
door on my Maslow..`. -/
def system_check_safety_door_ajar : ℕ := 0

/-- Calls the dispatcher makes into external collaborators, recorded in
order. A run with an empty event list performed no output and no mutation
outside `sys.state`. -/
inductive Event (α : Type) where
  | reportGrblHelp
  | reportGrblSettings
  | reportGcodeModes
  | reportNgcParameters
  | reportFeedbackMessage (code : ℕ)
  | mcReset
  | gcLine (line : List Char)
  | reportStatusMessage (st : Status)
  | reportStartupLine (n : ℕ) (line : List Char)
  | reportExecuteStartupMessage (line : List Char) (st : Status)
  | reportBuildInfo (line : List Char)
  | mcHomingCycle (mask : ℕ)
  | stGoIdle
  | setExecStateFlag (mask : ℕ)
  | motorsDisabled
  | eepromViewer
  | storeStartupLine (n : ℕ) (line : List Char)
  | storeBuildInfo (line : List Char)
  | settingsRestore (mask : ℕ)
  | storeGlobalSetting (n : ℕ) (v : α)
  deriving DecidableEq

/-- The external collaborators of the dispatcher (G-code parser, EEPROM
settings driver, `read_float`, homing) and the configuration switches of the
headers not present in the snapshot. `readFloat line cc` returns the parsed
value and the advanced counter, or `none` on parse failure; `abort` is the
value of `sys.abort` observed after a homing cycle. -/
structure Env (α : Type) where
  homingEnabled : Bool
  abort : Bool
  nStartupLine : ℕ
  eepromLineSize : ℕ
  homingSingleAxisCommands : Bool
  buildInfoWriteCommand : Bool
  restoreSettingsCmd : Bool
  restoreParamsCmd : Bool
  restoreAllCmd : Bool
  gcExecuteLine : List Char → Status
  readStartupLine : ℕ → Option (List Char)
  readBuildInfo : List Char
  readFloat : List Char → ℕ → Option (α × ℕ)
  storeGlobalSetting : ℕ → α → Status

/-- Result of one dispatcher run: returned status, final `sys.state`, and the
collaborator calls made. -/
structure ExecResult (α : Type) where
  status : Status
  state : MachineState
  events : List (Event α)
  deriving DecidableEq

/-- The `for` loop body of `system_execute_startup`, as the per-slot event
list: read failure reports `STATUS_SETTING_READ_FAIL` (with the cleared
line), a non-empty line is submitted to the G-code collaborator and its
status reported, an empty line does nothing. -/
def startupSlotEvents (env : Env α) (n : ℕ) : List (Event α) :=
  match env.readStartupLine n with
  | none => [Event.reportExecuteStartupMessage [] Status.settingReadFail]
  | some line =>
      if line = [] then []
      else [Event.gcLine line, Event.reportExecuteStartupMessage line (env.gcExecuteLine line)]

/-- The `for (n=0; n < N_STARTUP_LINE; n++)` loop of
`system_execute_startup`, counting down the remaining slots. -/
def executeStartupLoop (env : Env α) : ℕ → ℕ → List (Event α)
  | _, 0 => []
  | n, k + 1 =>
      (match env.readStartupLine n with
       | none => [Event.reportExecuteStartupMessage [] Status.settingReadFail]
       | some line =>
           if line = [] then []
           else [Event.gcLine line,
             Event.reportExecuteStartupMessage line (env.gcExecuteLine line)]) ++
      executeStartupLoop env (n + 1) k

/-- `system_execute_startup`. -/
def system_execute_startup (env : Env α) : List (Event α) :=
  executeStartupLoop env 0 env.nStartupLine

/-- The `$N` print loop (`case 'N'` with `line[2] == 0`). -/
def printStartupLinesLoop (env : Env α) : ℕ → ℕ → List (Event α)
  | _, 0 => []
  | n, k + 1 =>
      (match env.readStartupLine n with
       | none => [Event.reportStatusMessage Status.settingReadFail]
       | some line => [Event.reportStartupLine n line]) ++
      printStartupLinesLoop env (n + 1) k

/-- The shared numeric tail of the inner `switch` (`default:` case, also
reached from `case 'N'` with a stored line): parse `<n>=` then either store a
startup line (`storeStartup`, the source's `helper_var`) or a global
setting. -/
def storeSettingTail [FloorRing α] (env : Env α) (line : List Char) (st : MachineState)
    (charCounter : ℕ) (storeStartup : Bool) : ExecResult α :=
  match env.readFloat line charCounter with
  | none => ⟨Status.badNumberFormat, st, []⟩
  | some (parameter, cc0) =>
      if chAt line cc0 ≠ '=' then ⟨Status.invalidStatement, st, []⟩
      else
        let cc := cc0 + 1
        if storeStartup then
          -- shift the block to the start of the buffer, then validate it
          let block := line.drop cc
          if cc + block.length + 1 > env.eepromLineSize then
            ⟨Status.lineLengthExceeded, st, []⟩
          else
            let stc := env.gcExecuteLine block
            if stc ≠ Status.ok then ⟨stc, st, [Event.gcLine block]⟩
            else
              let n := ((ctrunc parameter).toNat % 256)
              ⟨Status.ok, st, [Event.gcLine block, Event.storeStartupLine n block]⟩
        else
          match env.readFloat line cc with
          | none => ⟨Status.badNumberFormat, st, []⟩
          | some (value, cc2) =>
              if chAt line cc2 ≠ NUL ∨ parameter > 255 then
                ⟨Status.invalidStatement, st, []⟩
              else
                let n := ((ctrunc parameter).toNat % 256)
                ⟨env.storeGlobalSetting n value, st, [Event.storeGlobalSetting n value]⟩

/-- `case 'H'`: the homing path. `sys.state` is set to `STATE_HOMING` before
the suffix is validated, so an invalid suffix returns with the state still
`Homing` (a quirk of the source kept here). -/
def homingCase (env : Env α) (line : List Char) (st : MachineState) : ExecResult α :=
  if ¬ env.homingEnabled then ⟨Status.settingDisabled, st, []⟩
  else if system_check_safety_door_ajar ≠ 0 then ⟨Status.checkDoor, st, []⟩
  else
    let cycle : Option (List (Event α)) :=
      if chAt line 2 = NUL then some [Event.mcHomingCycle HOMING_CYCLE_ALL]
      else if env.homingSingleAxisCommands ∧ chAt line 3 = NUL then
        if chAt line 2 = 'X' then some [Event.mcHomingCycle HOMING_CYCLE_X]
        else if chAt line 2 = 'Y' then some [Event.mcHomingCycle HOMING_CYCLE_Y]
        else if chAt line 2 = 'Z' then some [Event.mcHomingCycle HOMING_CYCLE_Z]
        else none
      else none
    match cycle with
    | none => ⟨Status.invalidStatement, MachineState.homing, []⟩
    | some ev =>
        if ¬ env.abort then
          ⟨Status.ok, MachineState.idle,
            ev ++ [Event.stGoIdle] ++
              (if chAt line 2 = NUL then system_execute_startup env else [])⟩
        else ⟨Status.ok, MachineState.homing, ev⟩

/-- `system_execute_line`: dispatch of one `$`-prefixed system line
(`line[1]` is inspected first; `line[0]` is the `$` consumed by the
protocol layer). -/
def system_execute_line [FloorRing α] (env : Env α) (line : List Char)
    (st : MachineState) : ExecResult α :=
  let c1 := chAt line 1
  if c1 = NUL then ⟨Status.ok, st, [Event.reportGrblHelp]⟩
  else if c1 = 'J' then
    -- Execute only if in IDLE or JOG states.
    if st ≠ MachineState.idle ∧ st ≠ MachineState.jog then ⟨Status.idleError, st, []⟩
    else if chAt line 2 ≠ '=' then ⟨Status.invalidStatement, st, []⟩
    else ⟨env.gcExecuteLine line, st, [Event.gcLine line]⟩
  else if c1 = '$' ∨ c1 = 'G' ∨ c1 = 'C' ∨ c1 = 'X' then
    if chAt line 2 ≠ NUL then ⟨Status.invalidStatement, st, []⟩
    else if c1 = '$' then
      -- Block during cycle. Takes too long to print.
      if st.value &&& (STATE_CYCLE ||| STATE_HOLD) ≠ 0 then ⟨Status.idleError, st, []⟩
      else ⟨Status.ok, st, [Event.reportGrblSettings]⟩
    else if c1 = 'G' then ⟨Status.ok, st, [Event.reportGcodeModes]⟩
    else if c1 = 'C' then
      -- Perform reset when toggling off; requires no alarm mode to toggle on.
      if st = MachineState.checkMode then
        ⟨Status.ok, st, [Event.mcReset, Event.reportFeedbackMessage MESSAGE_DISABLED]⟩
      else if st.value ≠ 0 then ⟨Status.idleError, st, []⟩
      else ⟨Status.ok, MachineState.checkMode, [Event.reportFeedbackMessage MESSAGE_ENABLED]⟩
    else -- 'X': disable alarm lock
      if st = MachineState.alarm then
        if system_check_safety_door_ajar ≠ 0 then ⟨Status.checkDoor, st, []⟩
        else ⟨Status.ok, MachineState.idle,
          [Event.reportFeedbackMessage MESSAGE_ALARM_UNLOCK]⟩
      else ⟨Status.ok, st, []⟩
  else
    -- Block any system command that requires the state as IDLE/ALARM.
    if ¬ (st = MachineState.idle ∨ st = MachineState.alarm) then ⟨Status.idleError, st, []⟩
    else if c1 = '|' then ⟨Status.ok, st, [Event.eepromViewer]⟩
    else if c1 = '#' then
      if chAt line 2 ≠ NUL then ⟨Status.invalidStatement, st, []⟩
      else ⟨Status.ok, st, [Event.reportNgcParameters]⟩
    else if c1 = 'H' then homingCase env line st
    else if c1 = 'S' then
      if chAt line 2 ≠ 'L' ∨ chAt line 3 ≠ 'P' ∨ chAt line 4 ≠ NUL then
        ⟨Status.invalidStatement, st, []⟩
      else ⟨Status.ok, st, [Event.setExecStateFlag EXEC_SLEEP, Event.motorsDisabled]⟩
    else if c1 = 'I' then
      if chAt line 2 = NUL then ⟨Status.ok, st, [Event.reportBuildInfo env.readBuildInfo]⟩
      else if env.buildInfoWriteCommand then
        if chAt line 2 ≠ '=' then ⟨Status.invalidStatement, st, []⟩
        else ⟨Status.ok, st, [Event.storeBuildInfo (line.drop 3)]⟩
      else ⟨Status.ok, st, []⟩
    else if c1 = 'R' then
      if chAt line 2 ≠ 'S' ∨ chAt line 3 ≠ 'T' ∨ chAt line 4 ≠ '=' ∨ chAt line 6 ≠ NUL then
        ⟨Status.invalidStatement, st, []⟩
      else
        let mask : Option ℕ :=
          if chAt line 5 = '$' ∧ env.restoreSettingsCmd then some SETTINGS_RESTORE_DEFAULTS
          else if chAt line 5 = '#' ∧ env.restoreParamsCmd then some SETTINGS_RESTORE_PARAMETERS
          else if chAt line 5 = '*' ∧ env.restoreAllCmd then some SETTINGS_RESTORE_ALL
          else none
        match mask with
        | none => ⟨Status.invalidStatement, st, []⟩
        | some m =>
            ⟨Status.ok, st, [Event.settingsRestore m,
              Event.reportFeedbackMessage MESSAGE_RESTORE_DEFAULTS, Event.mcReset]⟩
    else if c1 = 'N' then
      if chAt line 2 = NUL then
        ⟨Status.ok, st, printStartupLinesLoop env 0 env.nStartupLine⟩
      else
        -- Store only when idle. Prevents motion during ALARM.
        if st ≠ MachineState.idle then ⟨Status.idleError, st, []⟩
        else storeSettingTail env line st 2 true
    else storeSettingTail env line st 1 false

/-! ## Concrete fixtures -/

/-- A concrete collaborator environment over `ℚ`, for evaluating the
dispatcher on concrete inputs. -/
def qEnv : Env ℚ where
  homingEnabled := true
  abort := false
  nStartupLine := 2
  eepromLineSize := 80
  homingSingleAxisCommands := false
  buildInfoWriteCommand := true
  restoreSettingsCmd := true
  restoreParamsCmd := true
  restoreAllCmd := true
  gcExecuteLine := fun _ => Status.ok
  readStartupLine := fun _ => some []
  readBuildInfo := []
  readFloat := fun _ _ => none
  storeGlobalSetting := fun _ _ => Status.ok

/-- Rational settings fixture with `max_travel = [-2000, -1500, -100]` and
`zTravelMin = 0` (the travel-limit scenario of the spec). -/
def c4Settings : Settings ℚ where
  steps_per_mm := fun _ => 100
  max_travel := ![-2000, -1500, -100]
  zTravelMin := 0
  chainLength := 3360
  distBetweenMotors := 3000
  machineHeight := 1220
  motorOffsetY := 463
  chainOverSprocket := 1
  leftChainTolerance := 0
  rightChainTolerance := 0
  chainElongationFactor := 0
  sledWeight := 45
  rotationDiskRadius := 139
  XcorrScaling := 1
  YcorrScaling := 1
  simpleKinematics := false

/-- Rational settings fixture for exercising the forward-solver divergence
path: tiny `chainLength`, forward (not simple) kinematics. -/
def c10Settings : Settings ℚ where
  steps_per_mm := fun _ => 1
  max_travel := fun _ => -100
  zTravelMin := 0
  chainLength := 1
  distBetweenMotors := 10
  machineHeight := 10
  motorOffsetY := 0
  chainOverSprocket := 1
  leftChainTolerance := 0
  rightChainTolerance := 0
  chainElongationFactor := 0
  sledWeight := 0
  rotationDiskRadius := 0
  XcorrScaling := 1
  YcorrScaling := 1
  simpleKinematics := false

/-- Real settings fixture (motors 600 mm apart, motor plane at `y = 1000`)
for the kinematics symmetry theorems; every kinematics input of
`triangularInverse` is rational. -/
noncomputable def c3Base : Settings ℝ where
  steps_per_mm := fun _ => 100
  max_travel := fun _ => -1000
  zTravelMin := 0
  chainLength := 0
  distBetweenMotors := 600
  machineHeight := 2000
  motorOffsetY := 0
  chainOverSprocket := 1
  leftChainTolerance := 0
  rightChainTolerance := 0
  chainElongationFactor := 0
  sledWeight := 45
  rotationDiskRadius := 0
  XcorrScaling := 1
  YcorrScaling := 1
  simpleKinematics := false

/-- Real settings fixture with *unequal* per-side chain tolerances
(`leftChainTolerance = 0`, `rightChainTolerance = 100`), elasticity off. -/
noncomputable def c7CexSettings : Settings ℝ :=
  { c3Base with rightChainTolerance := 100 }

/-! ## Theorems -/

theorem executeStartupLoop_eq_flatMap (env : Env α) (k : ℕ) :
    ∀ n, executeStartupLoop env n k = (List.range' n k).flatMap (startupSlotEvents env) := by
  induction k with
  | zero => intro n; simp [executeStartupLoop]
  | succ k ih =>
      intro n
      rw [executeStartupLoop, List.range'_succ, List.flatMap_cons, ih (n + 1)]
      rfl

/-- C8: `system_execute_startup` processes every slot `0 ≤ n <
N_STARTUP_LINE` in order and never aborts early: its event trace is the
concatenation of the independent per-slot traces (read failure reports a
read-fail status; a non-empty line is submitted to the G-code collaborator
with its status reported), so a failure in one slot cannot suppress any
later slot's events. -/
theorem c8_startup_runs_every_slot (env : Env α) :
    system_execute_startup env =
      (List.range env.nStartupLine).flatMap (startupSlotEvents env) ∧
    ∀ n, n < env.nStartupLine →
      ∃ pre post, system_execute_startup env =
        pre ++ startupSlotEvents env n ++ post := by
  have hmain : system_execute_startup env =
      (List.range env.nStartupLine).flatMap (startupSlotEvents env) := by
    rw [system_execute_startup, executeStartupLoop_eq_flatMap, List.range_eq_range']
  refine ⟨hmain, fun n hn => ?_⟩
  refine ⟨(List.range' 0 n).flatMap (startupSlotEvents env),
    (List.range' (n + 1) (env.nStartupLine - n - 1)).flatMap (startupSlotEvents env), ?_⟩
  rw [hmain, List.range_eq_range']
  have hsplit : List.range' 0 n ++ List.range' n (env.nStartupLine - n) =
      List.range' 0 env.nStartupLine := by
    have h := List.range'_append 0 n (env.nStartupLine - n) 1
    simp only [Nat.zero_add, Nat.one_mul] at h
    rw [h]
    congr 1
    omega
  have hsucc : List.range' n (env.nStartupLine - n) =
      n :: List.range' (n + 1) (env.nStartupLine - n - 1) := by
    have h : env.nStartupLine - n = (env.nStartupLine - n - 1) + 1 := by omega
    conv_lhs => rw [h]
    rw [List.range'_succ]
  rw [← hsplit, hsucc, List.flatMap_append, List.flatMap_cons, List.append_assoc]

/-- C5: from `Cycle` or `Hold`, dispatching `$$` returns `IdleError`, makes
no collaborator call (prints nothing, stores nothing) and leaves the machine
state unchanged. -/
theorem c5_settings_query_blocked_in_cycle_hold [FloorRing α] (env : Env α) :
    system_execute_line env ['$', '$'] MachineState.cycle =
      ⟨Status.idleError, MachineState.cycle, []⟩ ∧
    system_execute_line env ['$', '$'] MachineState.hold =
      ⟨Status.idleError, MachineState.hold, []⟩ :=
  ⟨rfl, rfl⟩

/-- C6: `$C` toggles between `Idle` and `CheckMode`: from `Idle` it enters
`CheckMode` with `Ok`; from `CheckMode` it forces a reset (`mc_reset`); from
every other state it returns `IdleError` with no state change and no
collaborator call. -/
theorem c6_check_mode_toggle [FloorRing α] (env : Env α) :
    system_execute_line env ['$', 'C'] MachineState.idle =
      ⟨Status.ok, MachineState.checkMode,
        [Event.reportFeedbackMessage MESSAGE_ENABLED]⟩ ∧
    system_execute_line env ['$', 'C'] MachineState.checkMode =
      ⟨Status.ok, MachineState.checkMode,
        [Event.mcReset, Event.reportFeedbackMessage MESSAGE_DISABLED]⟩ ∧
    ∀ st : MachineState, st ≠ MachineState.idle → st ≠ MachineState.checkMode →
      system_execute_line env ['$', 'C'] st = ⟨Status.idleError, st, []⟩ := by
  refine ⟨rfl, rfl, fun st h1 h2 => ?_⟩
  cases st <;> first | rfl | simp at h1 h2

theorem c6_check_mode_toggle_witness :
    (MachineState.alarm ≠ MachineState.idle ∧
      MachineState.alarm ≠ MachineState.checkMode) ∧
    system_execute_line qEnv ['$', 'C'] MachineState.alarm =
      ⟨Status.idleError, MachineState.alarm, []⟩ :=
  ⟨⟨by decide, by decide⟩,
    (c6_check_mode_toggle qEnv).2.2 MachineState.alarm (by decide) (by decide)⟩

/-- C9: on Maslow builds `system_check_safety_door_ajar` always returns `0`
(the door is never ajar), so the `CheckDoor` branches of the `$X`
alarm-unlock path and the `$H` homing path are unreachable: no dispatch of a
`$X` or `$H` line (any suffix, any state, any collaborator environment) can
return `CheckDoor`. -/
theorem c9_check_door_unreachable [FloorRing α] :
    system_check_safety_door_ajar = 0 ∧
    ∀ (env : Env α) (c : Char) (tail : List Char) (st : MachineState),
      (system_execute_line env (c :: 'X' :: tail) st).status ≠ Status.checkDoor ∧
      (system_execute_line env (c :: 'H' :: tail) st).status ≠ Status.checkDoor := by
  refine ⟨rfl, fun env c tail st => ⟨?_, ?_⟩⟩ <;>
  · simp [system_execute_line, chAt, NUL, homingCase, system_check_safety_door_ajar]
    split_ifs <;> simp

/-- C4: `system_check_travel_limits` returns `true` (travel exceeded)
exactly when the Z component lies outside `[max_travel[Z], zTravelMin]` or
an X or Y component lies outside the symmetric interval
`[-(-max_travel/2), -max_travel/2]`; on the spec's fixture
(`max_travel = [-2000, -1500, -100]`, `zTravelMin = 0`) the target
`[0, 0, -50]` is in range and `[0, 0, 5]` is not. -/
theorem c4_travel_limits :
    (∀ (s : Settings ℚ) (target : Fin 3 → ℚ),
      system_check_travel_limits s target = true ↔
        (target Z_AXIS ∉ Set.Icc (s.max_travel Z_AXIS) s.zTravelMin ∨
          target X_AXIS ∉
            Set.Icc (-(-s.max_travel X_AXIS / 2)) (-s.max_travel X_AXIS / 2) ∨
          target Y_AXIS ∉
            Set.Icc (-(-s.max_travel Y_AXIS / 2)) (-s.max_travel Y_AXIS / 2))) ∧
    system_check_travel_limits c4Settings ![0, 0, -50] = false ∧
    system_check_travel_limits c4Settings ![0, 0, 5] = true := by
  refine ⟨fun s target => ?_,
    by norm_num [system_check_travel_limits, axisExceeded, c4Settings, Z_AXIS],
    by norm_num [system_check_travel_limits, axisExceeded, c4Settings, Z_AXIS]⟩
  simp only [system_check_travel_limits, axisExceeded, X_AXIS, Y_AXIS, Z_AXIS,
    List.any_cons, List.any_nil, Bool.or_eq_true, Bool.or_false,
    decide_eq_true_eq, Set.mem_Icc, not_and_or, not_le]
  norm_num
  constructor
  · rintro ((h | h) | (h | h) | (h | h)) <;> simp_all [div_neg, neg_div]
  · rintro ((h | h) | (h | h) | (h | h)) <;> simp_all [div_neg, neg_div]

theorem triangularForwardLoop_spec (inv : α → α → α × α) (chainLen a b : α) :
    ∀ (fuel n : ℕ) (x y : α), n ≤ KINEMATICS_MAX_GUESS →
      KINEMATICS_MAX_GUESS + 1 ≤ n + fuel →
      ∃ r, triangularForwardLoop inv chainLen a b x y n fuel = some r ∧
        ((r = ⟨true, 0, 0⟩ ∧ ∃ (m : ℕ) (xg yg : α),
            (m + 1 > KINEMATICS_MAX_GUESS ∨ (inv xg yg).1 > chainLen ∨
              (inv xg yg).2 > chainLen)) ∨
          (r.diverged = false ∧ ∃ xg yg : α,
            |a - (inv xg yg).1| ≤ KINEMATICS_MAX_ERR ∧
            |b - (inv xg yg).2| ≤ KINEMATICS_MAX_ERR ∧
            (inv xg yg).1 ≤ chainLen ∧ (inv xg yg).2 ≤ chainLen ∧
            r.x = xg + (a - (inv xg yg).1) - (b - (inv xg yg).2) ∧
            r.y = yg - (a - (inv xg yg).1) - (b - (inv xg yg).2))) := by
  intro fuel
  induction fuel with
  | zero => intro n x y h1 h2; omega
  | succ fuel ih =>
      intro n x y h1 h2
      rw [triangularForwardLoop]
      split
      · next hexit =>
          split
          · next hdiv => exact ⟨⟨true, 0, 0⟩, rfl, Or.inl ⟨rfl, n, x, y, hdiv⟩⟩
          · next hdiv =>
              rcases hexit with herr | hrest
              · push_neg at hdiv
                exact ⟨_, rfl,
                  Or.inr ⟨rfl, x, y, herr.1, herr.2, hdiv.2.1, hdiv.2.2, rfl, rfl⟩⟩
              · exact absurd hrest hdiv
      · next hexit =>
          push_neg at hexit
          exact ih (n + 1) _ _ (by omega) (by omega)

/-- C1: for every pair of chain lengths and every starting seed,
`triangularForward` terminates within its fuel bound
(`KINEMATICS_MAX_GUESS + 1` iterations never exhaust it): it exits either
through the divergence guard — iteration count above `KINEMATICS_MAX_GUESS`
or a guessed chain length above `settings.chainLength` — in which case it
reports the message (the `diverged` flag) and writes the sentinel `(0, 0)`
through the output pointers (in the conversion path, the seed cache), or
through the convergence test, in which case both chain errors at the final
guess point are at most `KINEMATICS_MAX_ERR = 0.01`, both guessed lengths
are within `settings.chainLength`, and the returned (cached) value is the
adjusted guess. -/
theorem c1_triangular_forward_terminates (s : Settings ℝ)
    (chainALength chainBLength xSeed ySeed : ℝ) :
    ∃ r : FwdResult ℝ,
      triangularForward s chainALength chainBLength xSeed ySeed = some r ∧
        ((r = ⟨true, 0, 0⟩ ∧ ∃ (m : ℕ) (xg yg : ℝ),
            (m + 1 > KINEMATICS_MAX_GUESS ∨
              (triangularInverse s xg yg).1 > s.chainLength ∨
              (triangularInverse s xg yg).2 > s.chainLength)) ∨
          (r.diverged = false ∧ ∃ xg yg : ℝ,
            |chainALength - (triangularInverse s xg yg).1| ≤ KINEMATICS_MAX_ERR ∧
            |chainBLength - (triangularInverse s xg yg).2| ≤ KINEMATICS_MAX_ERR ∧
            (triangularInverse s xg yg).1 ≤ s.chainLength ∧
            (triangularInverse s xg yg).2 ≤ s.chainLength ∧
            r.x = xg + (chainALength - (triangularInverse s xg yg).1) -
              (chainBLength - (triangularInverse s xg yg).2) ∧
            r.y = yg - (chainALength - (triangularInverse s xg yg).1) -
              (chainBLength - (triangularInverse s xg yg).2))) :=
  triangularForwardLoop_spec (triangularInverse s) s.chainLength chainALength chainBLength
    (KINEMATICS_MAX_GUESS + 1) 0 xSeed ySeed (Nat.zero_le _) (by omega)

/-- C2: for every Maslow step array, `system_convert_array_steps_to_mpos`
equals the claim's pipeline: left/right steps → chain mm (via
`steps_per_mm[LEFT_MOTOR]`/`[RIGHT_MOTOR]`), forward kinematics, `(x, y)` mm
→ steps scaled by `steps_per_mm[X_AXIS]`/`[Y_AXIS]`, steps → mm by the same
per-axis scaling, Z passing through linearly, with the seed-cache
side-effect preserved. -/
theorem c2_steps_to_mpos_matches_claim (s : Settings ℝ) (steps : Fin 3 → ℤ)
    (xLast yLast : ℝ) :
    system_convert_array_steps_to_mpos s steps xLast yLast =
      steps_to_mpos_claim s steps xLast yLast := by
  simp only [system_convert_array_steps_to_mpos, system_convert_array_steps_to_mposP,
    system_convert_maslow_to_xy_stepsP, steps_to_mpos_claim, chainToPosition]
  cases chainToPositionP (triangularSimple s) (triangularInverse s) s.simpleKinematics
      s.chainLength ((steps LEFT_MOTOR : ℝ) / s.steps_per_mm LEFT_MOTOR)
      ((steps RIGHT_MOTOR : ℝ) / s.steps_per_mm RIGHT_MOTOR) xLast yLast with
  | none => rfl
  | some r => rfl

theorem triangularForwardLoop_diverged_sentinel (inv : α → α → α × α)
    (chainLen a b : α) :
    ∀ (fuel n : ℕ) (x y : α) (r : FwdResult α),
      triangularForwardLoop inv chainLen a b x y n fuel = some r →
      r.diverged = true → r.x = 0 ∧ r.y = 0 := by
  intro fuel
  induction fuel with
  | zero => intro n x y r h; simp [triangularForwardLoop] at h
  | succ fuel ih =>
      intro n x y r h hdiv
      rw [triangularForwardLoop] at h
      split at h
      · split at h
        · cases h; exact ⟨rfl, rfl⟩
        · cases h; simp at hdiv
      · exact ih _ _ _ _ h hdiv

/-- C10: when the forward solver diverges, the sentinel `(0, 0)` is written
through the output pointers, which in the steps-to-position path are the
seed-cache variables `_xLastPosition` / `_yLastPosition`: a divergent call
makes `system_convert_maslow_to_xy_steps` store `(0, 0)` as the new seed, so
the next conversion runs its forward solve seeded from `(0, 0)` rather than
from the last successfully computed position. -/
theorem c10_divergence_overwrites_seed [FloorRing α]
    (simpleF inv : α → α → α × α) (s : Settings α) (steps steps2 : Fin 3 → ℤ)
    (xLast yLast : α) (r : FwdResult α)
    (h : chainToPositionP simpleF inv s.simpleKinematics s.chainLength
        ((steps LEFT_MOTOR : α) / s.steps_per_mm LEFT_MOTOR)
        ((steps RIGHT_MOTOR : α) / s.steps_per_mm RIGHT_MOTOR) xLast yLast = some r)
    (hdiv : r.diverged = true) :
    ∃ m : MaslowSteps α,
      system_convert_maslow_to_xy_stepsP simpleF inv s steps xLast yLast = some m ∧
      m.xLast = 0 ∧ m.yLast = 0 ∧
      system_convert_maslow_to_xy_stepsP simpleF inv s steps2 m.xLast m.yLast =
        system_convert_maslow_to_xy_stepsP simpleF inv s steps2 0 0 := by
  have hr : r.x = 0 ∧ r.y = 0 := by
    unfold chainToPositionP at h
    by_cases hsk : s.simpleKinematics
    · rw [if_pos hsk] at h
      cases h
      simp at hdiv
    · rw [if_neg hsk] at h
      exact triangularForwardLoop_diverged_sentinel inv s.chainLength _ _ _ _ _ _ _ h hdiv
  obtain ⟨hx0, hy0⟩ := hr
  refine ⟨⟨ctrunc ((ctrunc r.x : α) * s.steps_per_mm X_AXIS),
    ctrunc ((ctrunc r.y : α) * s.steps_per_mm Y_AXIS), r.x, r.y⟩, ?_, hx0, hy0, ?_⟩
  · simp only [system_convert_maslow_to_xy_stepsP, h]
  · rw [hx0, hy0]

theorem c10_divergence_overwrites_seed_witness :
    (chainToPositionP (fun a b => (a, b)) (fun _ _ => ((2 : ℚ), 0))
        c10Settings.simpleKinematics c10Settings.chainLength
        ((((fun _ => 0) : Fin 3 → ℤ) LEFT_MOTOR : ℚ) / c10Settings.steps_per_mm LEFT_MOTOR)
        ((((fun _ => 0) : Fin 3 → ℤ) RIGHT_MOTOR : ℚ) / c10Settings.steps_per_mm RIGHT_MOTOR)
        5 7 = some ⟨true, 0, 0⟩) ∧
    (∃ m : MaslowSteps ℚ,
      system_convert_maslow_to_xy_stepsP (fun a b => (a, b)) (fun _ _ => ((2 : ℚ), 0))
        c10Settings (fun _ => 0) 5 7 = some m ∧
      m.xLast = 0 ∧ m.yLast = 0 ∧
      system_convert_maslow_to_xy_stepsP (fun a b => (a, b)) (fun _ _ => ((2 : ℚ), 0))
        c10Settings (fun _ => 0) m.xLast m.yLast =
        system_convert_maslow_to_xy_stepsP (fun a b => (a, b)) (fun _ _ => ((2 : ℚ), 0))
          c10Settings (fun _ => 0) 0 0) := by
  have h : chainToPositionP (fun a b => (a, b)) (fun _ _ => ((2 : ℚ), 0))
      c10Settings.simpleKinematics c10Settings.chainLength
      ((((fun _ => 0) : Fin 3 → ℤ) LEFT_MOTOR : ℚ) / c10Settings.steps_per_mm LEFT_MOTOR)
      ((((fun _ => 0) : Fin 3 → ℤ) RIGHT_MOTOR : ℚ) / c10Settings.steps_per_mm RIGHT_MOTOR)
      5 7 = some ⟨true, 0, 0⟩ := by
    have hloop : triangularForwardLoop (fun _ _ => ((2 : ℚ), 0)) 1 0 0 5 7 0 201 =
        some ⟨true, 0, 0⟩ := by
      rw [show (201 : ℕ) = 200 + 1 from rfl, triangularForwardLoop]
      norm_num [KINEMATICS_MAX_ERR, KINEMATICS_MAX_GUESS]
    simpa [chainToPositionP, c10Settings, KINEMATICS_MAX_GUESS] using hloop
  exact ⟨h, c10_divergence_overwrites_seed (fun a b => (a, b)) (fun _ _ => ((2 : ℚ), 0))
    c10Settings (fun _ => 0) (fun _ => 0) 5 7 ⟨true, 0, 0⟩ h rfl⟩

/-! Reflection `x ↦ -x` swaps the two motors in every intermediate quantity
of `triangularInverse`; these identities are unconditional. -/

theorem Motor1Distance_neg (s : Settings ℝ) (x y : ℝ) :
    Motor1Distance s (-x) y = Motor2Distance s x y := by
  unfold Motor1Distance Motor2Distance
  congr 1
  ring

theorem Motor2Distance_neg (s : Settings ℝ) (x y : ℝ) :
    Motor2Distance s (-x) y = Motor1Distance s x y := by
  unfold Motor1Distance Motor2Distance
  congr 1
  ring

theorem Chain1Angle_neg (s : Settings ℝ) (x y : ℝ) :
    Chain1Angle s (-x) y = Chain2Angle s x y := by
  simp only [Chain1Angle, Chain2Angle, Motor1Distance_neg]

theorem Chain2Angle_neg (s : Settings ℝ) (x y : ℝ) :
    Chain2Angle s (-x) y = Chain1Angle s x y := by
  simp only [Chain1Angle, Chain2Angle, Motor2Distance_neg]

theorem Chain1AroundSprocket_neg (s : Settings ℝ) (x y : ℝ) :
    Chain1AroundSprocket s (-x) y = Chain2AroundSprocket s x y := by
  simp only [Chain1AroundSprocket, Chain2AroundSprocket, Chain1Angle_neg]

theorem Chain2AroundSprocket_neg (s : Settings ℝ) (x y : ℝ) :
    Chain2AroundSprocket s (-x) y = Chain1AroundSprocket s x y := by
  simp only [Chain1AroundSprocket, Chain2AroundSprocket, Chain2Angle_neg]

theorem xTangent1_neg (s : Settings ℝ) (x y : ℝ) :
    xTangent1 s (-x) y = -xTangent2 s x y := by
  simp only [xTangent1, xTangent2, Chain1Angle_neg]
  split_ifs <;> ring

theorem yTangent1_neg (s : Settings ℝ) (x y : ℝ) :
    yTangent1 s (-x) y = yTangent2 s x y := by
  simp only [yTangent1, yTangent2, Chain1Angle_neg]

theorem xTangent2_neg (s : Settings ℝ) (x y : ℝ) :
    xTangent2 s (-x) y = -xTangent1 s x y := by
  simp only [xTangent1, xTangent2, Chain2Angle_neg]
  split_ifs <;> ring

theorem yTangent2_neg (s : Settings ℝ) (x y : ℝ) :
    yTangent2 s (-x) y = yTangent1 s x y := by
  simp only [yTangent1, yTangent2, Chain2Angle_neg]

theorem Chain1Straight_neg (s : Settings ℝ) (x y : ℝ) :
    Chain1Straight s (-x) y = Chain2Straight s x y := by
  simp only [Chain1Straight, Chain2Straight, Motor1Distance_neg]

theorem Chain2Straight_neg (s : Settings ℝ) (x y : ℝ) :
    Chain2Straight s (-x) y = Chain1Straight s x y := by
  simp only [Chain1Straight, Chain2Straight, Motor2Distance_neg]

theorem totalWeight_neg (s : Settings ℝ) (x y : ℝ) :
    totalWeight s (-x) y = totalWeight s x y := by
  simp only [totalWeight, Chain1Straight_neg, Chain2Straight_neg]
  ring

theorem tensionD_neg (s : Settings ℝ) (x y : ℝ) :
    tensionD s (-x) y = tensionD s x y := by
  simp only [tensionD, xTangent1_neg, yTangent1_neg, xTangent2_neg, yTangent2_neg]
  ring

theorem tension1_neg (s : Settings ℝ) (x y : ℝ) :
    tension1 s (-x) y = tension2 s x y := by
  unfold tension1 tension2
  rw [totalWeight_neg, tensionD_neg, xTangent1_neg, yTangent1_neg, xTangent2_neg,
    show (-xTangent2 s x y - -x) ^ 2 + (yTangent2 s x y - y) ^ 2 =
      (xTangent2 s x y - x) ^ 2 + (yTangent2 s x y - y) ^ 2 from by ring]
  ring

theorem tension2_neg (s : Settings ℝ) (x y : ℝ) :
    tension2 s (-x) y = tension1 s x y := by
  unfold tension1 tension2
  rw [totalWeight_neg, tensionD_neg, xTangent1_neg, xTangent2_neg, yTangent2_neg,
    show (-xTangent1 s x y - -x) ^ 2 + (yTangent1 s x y - y) ^ 2 =
      (xTangent1 s x y - x) ^ 2 + (yTangent1 s x y - y) ^ 2 from by ring]
  ring

/-! Inside the strip between the motors, the computed tangent point lies at
distance `√(d² − r²)` from the sled — the straight chain length. -/

set_option maxHeartbeats 1000000 in
theorem dist_sq_tangent1 (s : Settings ℝ) (x y : ℝ)
    (hstrip : -xCordOfMotor s ≤ x)
    (hd : sprocketRadius ^ 2 < (-1 * xCordOfMotor s - x) ^ 2 + (yCordOfMotor s - y) ^ 2) :
    (xTangent1 s x y - x) ^ 2 + (yTangent1 s x y - y) ^ 2 =
      Motor1Distance s x y ^ 2 - sprocketRadius ^ 2 := by
  have hr0 : (0:ℝ) < sprocketRadius := by norm_num [sprocketRadius]
  have hS0 : (0:ℝ) ≤ (-1 * xCordOfMotor s - x) ^ 2 + (yCordOfMotor s - y) ^ 2 := by positivity
  have hdsq : Motor1Distance s x y ^ 2 =
      (-1 * xCordOfMotor s - x) ^ 2 + (yCordOfMotor s - y) ^ 2 := by
    unfold Motor1Distance
    exact Real.sq_sqrt hS0
  have hdpos : 0 < Motor1Distance s x y := by
    unfold Motor1Distance
    exact Real.sqrt_pos.mpr (by nlinarith)
  simp only [xTangent1, yTangent1, Chain1Angle]
  set d := Motor1Distance s x y with hdd
  have hrd : sprocketRadius < d := by nlinarith
  have hXsq : (x + xCordOfMotor s) ^ 2 = d ^ 2 - (yCordOfMotor s - y) ^ 2 := by
    rw [hdsq]; ring
  have hY2 : (yCordOfMotor s - y) ^ 2 ≤ d ^ 2 := by
    nlinarith [sq_nonneg (x + xCordOfMotor s)]
  set u := (yCordOfMotor s - y) / d with hu
  set v := sprocketRadius / d with hv
  have hdne : d ≠ 0 := ne_of_gt hdpos
  have hud : u * d = yCordOfMotor s - y := by rw [hu]; field_simp
  have hvd : v * d = sprocketRadius := by rw [hv]; field_simp
  have hu2 : u ^ 2 ≤ 1 := by
    rw [hu, div_pow]
    exact div_le_one_of_le₀ hY2 (by positivity)
  have hulow : (-1 : ℝ) ≤ u := by nlinarith
  have huhigh : u ≤ 1 := by nlinarith
  have hv0 : (0:ℝ) ≤ v := by rw [hv]; positivity
  have hvlow : (-1:ℝ) ≤ v := by linarith
  have hvhigh : v ≤ 1 := by rw [hv]; exact div_le_one_of_le₀ hrd.le hdpos.le
  have hc2 : Real.sqrt (1 - u ^ 2) ^ 2 = 1 - u ^ 2 := Real.sq_sqrt (by linarith)
  have hcv2 : Real.sqrt (1 - v ^ 2) ^ 2 = 1 - v ^ 2 := Real.sq_sqrt (by nlinarith)
  have hX : x + xCordOfMotor s = d * Real.sqrt (1 - u ^ 2) := by
    have h1 : (x + xCordOfMotor s) ^ 2 = (d * Real.sqrt (1 - u ^ 2)) ^ 2 := by
      have he : (d * Real.sqrt (1 - u ^ 2)) ^ 2 = d ^ 2 * (1 - u ^ 2) := by
        rw [mul_pow, hc2]
      have husq : u ^ 2 * d ^ 2 = (yCordOfMotor s - y) ^ 2 := by
        rw [← hud]; ring
      rw [he, hXsq]
      linear_combination husq
    have h2 : 0 ≤ x + xCordOfMotor s := by linarith
    have h3 : 0 ≤ d * Real.sqrt (1 - u ^ 2) := by positivity
    have h4 := congrArg Real.sqrt h1
    rwa [Real.sqrt_sq h2, Real.sqrt_sq h3] at h4
  have hx_eq : x = d * Real.sqrt (1 - u ^ 2) - xCordOfMotor s := by linarith
  have hy_eq : y = yCordOfMotor s - u * d := by linarith [hud]
  split_ifs with hcs
  · rw [Real.sin_add, Real.cos_add, Real.sin_arcsin hulow huhigh, Real.cos_arcsin,
      Real.sin_arcsin hvlow hvhigh, Real.cos_arcsin, ← hvd, hx_eq, hy_eq]
    set c := Real.sqrt (1 - u ^ 2) with hcdef
    set cv := Real.sqrt (1 - v ^ 2) with hcvdef
    linear_combination (d ^ 2 * (1 - v ^ 2)) * hc2 +
      (d ^ 2 * v ^ 2 * (c ^ 2 + u ^ 2)) * hcv2
  · rw [Real.sin_sub, Real.cos_sub, Real.sin_arcsin hulow huhigh, Real.cos_arcsin,
      Real.sin_arcsin hvlow hvhigh, Real.cos_arcsin, ← hvd, hx_eq, hy_eq]
    set c := Real.sqrt (1 - u ^ 2) with hcdef
    set cv := Real.sqrt (1 - v ^ 2) with hcvdef
    linear_combination (d ^ 2 * (1 - v ^ 2)) * hc2 +
      (d ^ 2 * v ^ 2 * (c ^ 2 + u ^ 2)) * hcv2

set_option maxHeartbeats 1000000 in
theorem dist_sq_tangent2 (s : Settings ℝ) (x y : ℝ)
    (hstrip : x ≤ xCordOfMotor s)
    (hd : sprocketRadius ^ 2 < (xCordOfMotor s - x) ^ 2 + (yCordOfMotor s - y) ^ 2) :
    (xTangent2 s x y - x) ^ 2 + (yTangent2 s x y - y) ^ 2 =
      Motor2Distance s x y ^ 2 - sprocketRadius ^ 2 := by
  have hr0 : (0:ℝ) < sprocketRadius := by norm_num [sprocketRadius]
  have hS0 : (0:ℝ) ≤ (xCordOfMotor s - x) ^ 2 + (yCordOfMotor s - y) ^ 2 := by positivity
  have hdsq : Motor2Distance s x y ^ 2 =
      (xCordOfMotor s - x) ^ 2 + (yCordOfMotor s - y) ^ 2 := by
    unfold Motor2Distance
    exact Real.sq_sqrt hS0
  have hdpos : 0 < Motor2Distance s x y := by
    unfold Motor2Distance
    exact Real.sqrt_pos.mpr (by nlinarith)
  simp only [xTangent2, yTangent2, Chain2Angle]
  set d := Motor2Distance s x y with hdd
  have hrd : sprocketRadius < d := by nlinarith
  have hXsq : (xCordOfMotor s - x) ^ 2 = d ^ 2 - (yCordOfMotor s - y) ^ 2 := by
    rw [hdsq]; ring
  have hY2 : (yCordOfMotor s - y) ^ 2 ≤ d ^ 2 := by
    nlinarith [sq_nonneg (xCordOfMotor s - x)]
  set u := (yCordOfMotor s - y) / d with hu
  set v := sprocketRadius / d with hv
  have hdne : d ≠ 0 := ne_of_gt hdpos
  have hud : u * d = yCordOfMotor s - y := by rw [hu]; field_simp
  have hvd : v * d = sprocketRadius := by rw [hv]; field_simp
  have hu2 : u ^ 2 ≤ 1 := by
    rw [hu, div_pow]
    exact div_le_one_of_le₀ hY2 (by positivity)
  have hulow : (-1 : ℝ) ≤ u := by nlinarith
  have huhigh : u ≤ 1 := by nlinarith
  have hv0 : (0:ℝ) ≤ v := by rw [hv]; positivity
  have hvlow : (-1:ℝ) ≤ v := by linarith
  have hvhigh : v ≤ 1 := by rw [hv]; exact div_le_one_of_le₀ hrd.le hdpos.le
  have hc2 : Real.sqrt (1 - u ^ 2) ^ 2 = 1 - u ^ 2 := Real.sq_sqrt (by linarith)
  have hcv2 : Real.sqrt (1 - v ^ 2) ^ 2 = 1 - v ^ 2 := Real.sq_sqrt (by nlinarith)
  have hX : xCordOfMotor s - x = d * Real.sqrt (1 - u ^ 2) := by
    have h1 : (xCordOfMotor s - x) ^ 2 = (d * Real.sqrt (1 - u ^ 2)) ^ 2 := by
      have he : (d * Real.sqrt (1 - u ^ 2)) ^ 2 = d ^ 2 * (1 - u ^ 2) := by
        rw [mul_pow, hc2]
      have husq : u ^ 2 * d ^ 2 = (yCordOfMotor s - y) ^ 2 := by
        rw [← hud]; ring
      rw [he, hXsq]
      linear_combination husq
    have h2 : 0 ≤ xCordOfMotor s - x := by linarith
    have h3 : 0 ≤ d * Real.sqrt (1 - u ^ 2) := by positivity
    have h4 := congrArg Real.sqrt h1
    rwa [Real.sqrt_sq h2, Real.sqrt_sq h3] at h4
  have hx_eq : x = xCordOfMotor s - d * Real.sqrt (1 - u ^ 2) := by linarith
  have hy_eq : y = yCordOfMotor s - u * d := by linarith [hud]
  split_ifs with hcs
  · rw [Real.sin_add, Real.cos_add, Real.sin_arcsin hulow huhigh, Real.cos_arcsin,
      Real.sin_arcsin hvlow hvhigh, Real.cos_arcsin, ← hvd, hx_eq, hy_eq]
    set c := Real.sqrt (1 - u ^ 2) with hcdef
    set cv := Real.sqrt (1 - v ^ 2) with hcvdef
    linear_combination (d ^ 2 * (1 - v ^ 2)) * hc2 +
      (d ^ 2 * v ^ 2 * (c ^ 2 + u ^ 2)) * hcv2
  · rw [Real.sin_sub, Real.cos_sub, Real.sin_arcsin hulow huhigh, Real.cos_arcsin,
      Real.sin_arcsin hvlow hvhigh, Real.cos_arcsin, ← hvd, hx_eq, hy_eq]
    set c := Real.sqrt (1 - u ^ 2) with hcdef
    set cv := Real.sqrt (1 - v ^ 2) with hcvdef
    linear_combination (d ^ 2 * (1 - v ^ 2)) * hc2 +
      (d ^ 2 * v ^ 2 * (c ^ 2 + u ^ 2)) * hcv2

theorem Chain1Straight_pos (s : Settings ℝ) (x y : ℝ)
    (hd : sprocketRadius ^ 2 < (-1 * xCordOfMotor s - x) ^ 2 + (yCordOfMotor s - y) ^ 2) :
    0 < Chain1Straight s x y := by
  have hS0 : (0:ℝ) ≤ (-1 * xCordOfMotor s - x) ^ 2 + (yCordOfMotor s - y) ^ 2 := by
    positivity
  have hdsq : Motor1Distance s x y ^ 2 =
      (-1 * xCordOfMotor s - x) ^ 2 + (yCordOfMotor s - y) ^ 2 := by
    unfold Motor1Distance
    exact Real.sq_sqrt hS0
  unfold Chain1Straight
  exact Real.sqrt_pos.mpr (by linarith)

theorem Chain2Straight_pos (s : Settings ℝ) (x y : ℝ)
    (hd : sprocketRadius ^ 2 < (xCordOfMotor s - x) ^ 2 + (yCordOfMotor s - y) ^ 2) :
    0 < Chain2Straight s x y := by
  have hS0 : (0:ℝ) ≤ (xCordOfMotor s - x) ^ 2 + (yCordOfMotor s - y) ^ 2 := by
    positivity
  have hdsq : Motor2Distance s x y ^ 2 =
      (xCordOfMotor s - x) ^ 2 + (yCordOfMotor s - y) ^ 2 := by
    unfold Motor2Distance
    exact Real.sq_sqrt hS0
  unfold Chain2Straight
  exact Real.sqrt_pos.mpr (by linarith)

theorem sqrt_dist_eq_straight1 (s : Settings ℝ) (x y : ℝ)
    (hstrip : -xCordOfMotor s ≤ x)
    (hd : sprocketRadius ^ 2 < (-1 * xCordOfMotor s - x) ^ 2 + (yCordOfMotor s - y) ^ 2) :
    Real.sqrt ((xTangent1 s x y - x) ^ 2 + (yTangent1 s x y - y) ^ 2) =
      Chain1Straight s x y := by
  rw [dist_sq_tangent1 s x y hstrip hd]
  unfold Chain1Straight
  rfl

theorem sqrt_dist_eq_straight2 (s : Settings ℝ) (x y : ℝ)
    (hstrip : x ≤ xCordOfMotor s)
    (hd : sprocketRadius ^ 2 < (xCordOfMotor s - x) ^ 2 + (yCordOfMotor s - y) ^ 2) :
    Real.sqrt ((xTangent2 s x y - x) ^ 2 + (yTangent2 s x y - y) ^ 2) =
      Chain2Straight s x y := by
  rw [dist_sq_tangent2 s x y hstrip hd]
  unfold Chain2Straight
  rfl

theorem horizontalTension_neg (s : Settings ℝ) (x y : ℝ)
    (hstrip1 : -xCordOfMotor s ≤ x) (hstrip2 : x ≤ xCordOfMotor s)
    (hd1 : sprocketRadius ^ 2 < (-1 * xCordOfMotor s - x) ^ 2 + (yCordOfMotor s - y) ^ 2)
    (hd2 : sprocketRadius ^ 2 < (xCordOfMotor s - x) ^ 2 + (yCordOfMotor s - y) ^ 2) :
    horizontalTension s (-x) y = horizontalTension s x y := by
  unfold horizontalTension
  rw [tension1_neg, Chain1Straight_neg, xTangent1_neg,
    show -x - -xTangent2 s x y = xTangent2 s x y - x from by ring]
  unfold tension1 tension2
  rw [sqrt_dist_eq_straight1 s x y hstrip1 hd1, sqrt_dist_eq_straight2 s x y hstrip2 hd2]
  have e1 : Chain1Straight s x y * (Chain1Straight s x y)⁻¹ = 1 :=
    mul_inv_cancel₀ (ne_of_gt (Chain1Straight_pos s x y hd1))
  have e2 : Chain2Straight s x y * (Chain2Straight s x y)⁻¹ = 1 :=
    mul_inv_cancel₀ (ne_of_gt (Chain2Straight_pos s x y hd2))
  linear_combination
    (totalWeight s x y * (xTangent1 s x y - x) * (xTangent2 s x y - x) *
      (tensionD s x y)⁻¹) * e2 -
    (totalWeight s x y * (xTangent1 s x y - x) * (xTangent2 s x y - x) *
      (tensionD s x y)⁻¹) * e1

theorem catenaryA_neg (s : Settings ℝ) (x y : ℝ)
    (hstrip1 : -xCordOfMotor s ≤ x) (hstrip2 : x ≤ xCordOfMotor s)
    (hd1 : sprocketRadius ^ 2 < (-1 * xCordOfMotor s - x) ^ 2 + (yCordOfMotor s - y) ^ 2)
    (hd2 : sprocketRadius ^ 2 < (xCordOfMotor s - x) ^ 2 + (yCordOfMotor s - y) ^ 2) :
    catenaryA s (-x) y = catenaryA s x y := by
  unfold catenaryA
  rw [horizontalTension_neg s x y hstrip1 hstrip2 hd1 hd2]

theorem catenary1_neg (s : Settings ℝ) (x y : ℝ)
    (hstrip1 : -xCordOfMotor s ≤ x) (hstrip2 : x ≤ xCordOfMotor s)
    (hd1 : sprocketRadius ^ 2 < (-1 * xCordOfMotor s - x) ^ 2 + (yCordOfMotor s - y) ^ 2)
    (hd2 : sprocketRadius ^ 2 < (xCordOfMotor s - x) ^ 2 + (yCordOfMotor s - y) ^ 2) :
    catenary1 s (-x) y = catenary2 s x y := by
  unfold catenary1 catenary2
  rw [catenaryA_neg s x y hstrip1 hstrip2 hd1 hd2, xTangent1_neg, yTangent1_neg,
    show -x - -xTangent2 s x y = xTangent2 s x y - x from by ring]

theorem catenary2_neg (s : Settings ℝ) (x y : ℝ)
    (hstrip1 : -xCordOfMotor s ≤ x) (hstrip2 : x ≤ xCordOfMotor s)
    (hd1 : sprocketRadius ^ 2 < (-1 * xCordOfMotor s - x) ^ 2 + (yCordOfMotor s - y) ^ 2)
    (hd2 : sprocketRadius ^ 2 < (xCordOfMotor s - x) ^ 2 + (yCordOfMotor s - y) ^ 2) :
    catenary2 s (-x) y = catenary1 s x y := by
  unfold catenary1 catenary2
  rw [catenaryA_neg s x y hstrip1 hstrip2 hd1 hd2, xTangent2_neg, yTangent2_neg,
    show -xTangent1 s x y - -x = x - xTangent1 s x y from by ring]

/-- C7 counterexample: with unequal per-side chain tolerances
(`leftChainTolerance = 0`, `rightChainTolerance = 100`) the claimed swap
symmetry already fails at the symmetric target `(x, y) = (0, 0)`: the claim
there forces `L_a = L_b`, but the source divides only `chain2` by
`1 + rightChainTolerance/100`, so `L_a - L_b = catenary1/2 > 0`. -/
theorem c7_swap_symmetry_counterexample :
    ¬ (triangularInverse c7CexSettings (-0) 0 =
        ((triangularInverse c7CexSettings 0 0).2,
          (triangularInverse c7CexSettings 0 0).1)) := by
  intro hcontra
  rw [neg_zero] at hcontra
  have h1 : (triangularInverse c7CexSettings 0 0).1 =
      (triangularInverse c7CexSettings 0 0).2 := by
    have h := congrArg Prod.fst hcontra
    simpa using h
  have hL1 : (triangularInverse c7CexSettings 0 0).1 =
      Chain1AroundSprocket c7CexSettings 0 0 + catenary1 c7CexSettings 0 0 := by
    simp only [triangularInverse]
    norm_num [show c7CexSettings.leftChainTolerance = 0 from rfl,
      show c7CexSettings.chainElongationFactor = 0 from rfl,
      show c7CexSettings.rotationDiskRadius = 0 from rfl]
  have hL2 : (triangularInverse c7CexSettings 0 0).2 =
      Chain2AroundSprocket c7CexSettings 0 0 + catenary2 c7CexSettings 0 0 / 2 := by
    simp only [triangularInverse]
    norm_num [show c7CexSettings.rightChainTolerance = 100 from rfl,
      show c7CexSettings.chainElongationFactor = 0 from rfl,
      show c7CexSettings.rotationDiskRadius = 0 from rfl]
  have hars : Chain1AroundSprocket c7CexSettings 0 0 =
      Chain2AroundSprocket c7CexSettings 0 0 := by
    have h := Chain1AroundSprocket_neg c7CexSettings 0 0
    rwa [neg_zero] at h
  have hxt : xTangent1 c7CexSettings 0 0 = -xTangent2 c7CexSettings 0 0 := by
    have h := xTangent1_neg c7CexSettings 0 0
    rwa [neg_zero] at h
  have hyt : yTangent1 c7CexSettings 0 0 = yTangent2 c7CexSettings 0 0 := by
    have h := yTangent1_neg c7CexSettings 0 0
    rwa [neg_zero] at h
  have hcat12 : catenary1 c7CexSettings 0 0 = catenary2 c7CexSettings 0 0 := by
    unfold catenary1 catenary2
    rw [hxt, hyt, show (0:ℝ) - -xTangent2 c7CexSettings 0 0 =
      xTangent2 c7CexSettings 0 0 - 0 from by ring]
  have hyt1 : (989:ℝ) ≤ yTangent1 c7CexSettings 0 0 := by
    unfold yTangent1
    rw [if_pos (show c7CexSettings.chainOverSprocket = (1:ℝ) from rfl)]
    have hcos := Real.neg_one_le_cos (Chain1Angle c7CexSettings 0 0)
    rw [show yCordOfMotor c7CexSettings = 1000 from by
        norm_num [yCordOfMotor, show c7CexSettings.machineHeight = (2000:ℝ) from rfl,
          show c7CexSettings.motorOffsetY = (0:ℝ) from rfl],
      show sprocketRadius = (10.1:ℝ) from rfl]
    nlinarith [hcos]
  have hcat1 : (989:ℝ) ≤ catenary1 c7CexSettings 0 0 := by
    unfold catenary1
    have hle : (yTangent1 c7CexSettings 0 0 - 0) ^ 2 ≤
        (2 * catenaryA c7CexSettings 0 0 *
          Real.sinh ((0 - xTangent1 c7CexSettings 0 0) /
            (2 * catenaryA c7CexSettings 0 0))) ^ 2 +
        (yTangent1 c7CexSettings 0 0 - 0) ^ 2 := le_add_of_nonneg_left (sq_nonneg _)
    calc (989:ℝ) ≤ yTangent1 c7CexSettings 0 0 - 0 := by linarith
      _ ≤ |yTangent1 c7CexSettings 0 0 - 0| := le_abs_self _
      _ = Real.sqrt ((yTangent1 c7CexSettings 0 0 - 0) ^ 2) :=
        (Real.sqrt_sq_eq_abs _).symm
      _ ≤ _ := Real.sqrt_le_sqrt hle
  rw [hL1, hL2, hars, ← hcat12] at h1
  linarith

/-- C7 (amended): inverse kinematics is symmetric under `x ↦ -x` — swapping
`L_a ↔ L_b` is equivalent to negating `x` — provided the left and right
chain tolerances are equal (the only per-side settings asymmetry) and the
target lies in the reachable workspace horizontally between the motors
(`|x| ≤ distBetweenMotors/2`, strictly farther than the sprocket radius
from each motor anchor, below the motor plane). -/
theorem c7_inverse_swap_symmetry (s : Settings ℝ) (x y : ℝ)
    (htol : s.leftChainTolerance = s.rightChainTolerance)
    (hstrip : |x| ≤ xCordOfMotor s)
    (hd1 : sprocketRadius ^ 2 < (-1 * xCordOfMotor s - x) ^ 2 + (yCordOfMotor s - y) ^ 2)
    (hd2 : sprocketRadius ^ 2 < (xCordOfMotor s - x) ^ 2 + (yCordOfMotor s - y) ^ 2)
    (hbelow : y < yCordOfMotor s) :
    triangularInverse s (-x) y =
      ((triangularInverse s x y).2, (triangularInverse s x y).1) := by
  obtain ⟨hs1, hs2⟩ := abs_le.mp hstrip
  unfold triangularInverse
  dsimp only
  refine Prod.ext ?_ ?_
  · dsimp only
    rw [Chain1AroundSprocket_neg, catenary1_neg s x y hs1 hs2 hd1 hd2, tension1_neg, htol]
  · dsimp only
    rw [Chain2AroundSprocket_neg, catenary2_neg s x y hs1 hs2 hd1 hd2, tension2_neg,
      ← htol]

theorem c7_inverse_swap_symmetry_witness :
    (c3Base.leftChainTolerance = c3Base.rightChainTolerance ∧
      |(100:ℝ)| ≤ xCordOfMotor c3Base ∧
      sprocketRadius ^ 2 <
        (-1 * xCordOfMotor c3Base - 100) ^ 2 + (yCordOfMotor c3Base - 0) ^ 2 ∧
      sprocketRadius ^ 2 <
        (xCordOfMotor c3Base - 100) ^ 2 + (yCordOfMotor c3Base - 0) ^ 2 ∧
      (0:ℝ) < yCordOfMotor c3Base) ∧
    triangularInverse c3Base (-100) 0 =
      ((triangularInverse c3Base 100 0).2, (triangularInverse c3Base 100 0).1) := by
  have h1 : c3Base.leftChainTolerance = c3Base.rightChainTolerance := rfl
  have h2 : |(100:ℝ)| ≤ xCordOfMotor c3Base := by
    rw [abs_of_nonneg (by norm_num : (0:ℝ) ≤ 100)]
    norm_num [xCordOfMotor, show c3Base.distBetweenMotors = (600:ℝ) from rfl]
  have h3 : sprocketRadius ^ 2 <
      (-1 * xCordOfMotor c3Base - 100) ^ 2 + (yCordOfMotor c3Base - 0) ^ 2 := by
    norm_num [sprocketRadius, xCordOfMotor, yCordOfMotor,
      show c3Base.distBetweenMotors = (600:ℝ) from rfl,
      show c3Base.machineHeight = (2000:ℝ) from rfl,
      show c3Base.motorOffsetY = (0:ℝ) from rfl]
  have h4 : sprocketRadius ^ 2 <
      (xCordOfMotor c3Base - 100) ^ 2 + (yCordOfMotor c3Base - 0) ^ 2 := by
    norm_num [sprocketRadius, xCordOfMotor, yCordOfMotor,
      show c3Base.distBetweenMotors = (600:ℝ) from rfl,
      show c3Base.machineHeight = (2000:ℝ) from rfl,
      show c3Base.motorOffsetY = (0:ℝ) from rfl]
  have h5 : (0:ℝ) < yCordOfMotor c3Base := by
    norm_num [yCordOfMotor, show c3Base.machineHeight = (2000:ℝ) from rfl,
      show c3Base.motorOffsetY = (0:ℝ) from rfl]
  exact ⟨⟨h1, h2, h3, h4, h5⟩, c7_inverse_swap_symmetry c3Base 100 0 h1 h2 h3 h4 h5⟩

end MaslowDue
